import Mathlib

/-!
Verification of the chat-transcript extractor in `html_chat_to_md.py`.

The extractor is a streaming scanner over the structural events of an HTML
document (element-open with attributes, character data, element-close), as
delivered by Python's `html.parser.HTMLParser`.  We embed the scanner
shallowly: an `Event` type models one parser callback, `ScanState` models the
mutable fields of `ConversationParser`, and each `handle_*` method becomes a
Lean function on `ScanState`.  A start-tag handler can fail (in Python,
`re.search` raises `TypeError` when the class attribute is present without a
value, so that `attr_dict.get("class", "")` returns `None`); we model that
failure with `Except`.

Python specifics carried over faithfully:
  * truthiness of `self._current_role` (a `str | None`): `None` and the empty
    string are falsy;
  * `str.strip()` removes from both ends every character for which
    `str.isspace()` holds (the Unicode whitespace set of CPython, NBSP and
    the separator controls included);
  * `{k: v for k, v in attrs}` keeps the LAST binding of a duplicated key;
  * `dict.get(key, default)` returns the stored value, even when that stored
    value is `None`; the default applies only when the key is absent;
  * `re.search(pat, s, re.IGNORECASE)` for the literal patterns used here is a
    case-insensitive substring test (alternation = any of the alternatives).
-/

deriving instance DecidableEq for Except

namespace HtmlChatToMd

/-- The characters stripped by Python's `str.strip()`: exactly those with
`str.isspace()` true, i.e. U+0009..U+000D, U+001C..U+001F, space, U+0085
(NEL), U+00A0 (NBSP), U+1680 (Ogham space), U+2000..U+200A, U+2028, U+2029,
U+202F, U+205F and U+3000 (ideographic space). -/
def pyIsSpace (c : Char) : Bool :=
  ('\x09' ≤ c && c ≤ '\x0d') || ('\x1c' ≤ c && c ≤ '\x1f') || c = ' ' ||
  c = '\x85' || c = '\xa0' || c = '\u1680' ||
  ('\u2000' ≤ c && c ≤ '\u200a') || c = '\u2028' || c = '\u2029' ||
  c = '\u202f' || c = '\u205f' || c = '\u3000'

/-- Python `str.strip()`: drop leading and trailing whitespace. -/
def strip (s : String) : String :=
  ⟨((s.data.dropWhile pyIsSpace).reverse.dropWhile pyIsSpace).reverse⟩

/-- `needle` occurs at the front of `hay`. -/
def listPrefixOf : List Char → List Char → Bool
  | [], _ => true
  | _ :: _, [] => false
  | a :: as, b :: bs => a = b && listPrefixOf as bs

/-- `needle` occurs somewhere inside `hay`. -/
def listInfixOf (needle : List Char) : List Char → Bool
  | [] => listPrefixOf needle []
  | b :: bs => listPrefixOf needle (b :: bs) || listInfixOf needle bs

/-- ASCII lower-casing of a string (the patterns matched are ASCII). -/
def lowerStr (s : String) : String :=
  ⟨s.data.map Char.toLower⟩

/-- Case-insensitive substring test: `re.search(pat, hay, re.IGNORECASE)`
succeeds, for a literal pattern `pat`. -/
def containsCI (hay pat : String) : Bool :=
  listInfixOf (lowerStr pat).data (lowerStr hay).data

/-- One structural event of the document, as delivered by `HTMLParser`:
an element-open with its attribute list (an attribute written without a value
carries `none`), character data, or an element-close. -/
inductive Event where
  | starttag (tag : String) (attrs : List (String × Option String))
  | data (s : String)
  | endtag (tag : String)
deriving DecidableEq

/-- The mutable state of `ConversationParser`: the accumulated messages, the
currently active role (`None` in Python = `none`), and the buffered text
fragments. -/
structure ScanState where
  messages : List (String × String)
  currentRole : Option String
  buffer : List String
deriving DecidableEq

/-- The state built by `ConversationParser.__init__`. -/
def initState : ScanState :=
  { messages := [], currentRole := none, buffer := [] }

/-- Python truthiness of `self._current_role : str | None`. -/
def roleTruthy : Option String → Bool
  | none => false
  | some r => if r = "" then false else true

/-- `ConversationParser._close_message`: when a role is active and the buffer
is non-empty, join the buffer, strip it, and append `(role, text)` when the
stripped text is non-empty; in every case clear the buffer and the role. -/
def close_message (st : ScanState) : ScanState :=
  let msgs :=
    if roleTruthy st.currentRole ∧ st.buffer ≠ [] then
      let text := strip (String.join st.buffer)
      if text ≠ "" then st.messages ++ [(st.currentRole.getD "", text)]
      else st.messages
    else st.messages
  { messages := msgs, currentRole := none, buffer := [] }

/-- `{k: v for k, v in attrs}` followed by lookup: the dict keeps the last
binding of a key, so we look the key up in the reversed list. -/
def lookupLast (attrs : List (String × Option String)) (key : String) :
    Option (Option String) :=
  attrs.reverse.lookup key

/-- `attr_dict.get("class", "")`: `some classes` on success, `none` when the
stored value is Python `None` (class attribute written without a value), which
makes the subsequent `re.search` raise `TypeError`. -/
def getClasses (attrs : List (String × Option String)) : Option String :=
  match lookupLast attrs "class" with
  | none => some ""
  | some v => v

/-- `ConversationParser.handle_starttag`: read the class attribute, classify
the role (`"user"` wins over `"assistant" | "bot" | "chatgpt"`), and on a role
signal close any open message and activate the new role.  Fails (Python
`TypeError`) when the class attribute is present without a value. -/
def handle_starttag (st : ScanState) (tag : String)
    (attrs : List (String × Option String)) : Except String ScanState :=
  match getClasses attrs with
  | none => Except.error "TypeError"
  | some classes =>
    let role : Option String :=
      if containsCI classes "user" then some "PROMPTER"
      else if containsCI classes "assistant" || containsCI classes "bot" ||
          containsCI classes "chatgpt" then some "CHAT"
      else none
    match role with
    | some r => Except.ok { close_message st with currentRole := some r }
    | none => Except.ok st

/-- `ConversationParser.handle_data`: buffer the text when a role is active,
discard it otherwise. -/
def handle_data (st : ScanState) (s : String) : ScanState :=
  if roleTruthy st.currentRole then { st with buffer := st.buffer ++ [s] }
  else st

/-- `ConversationParser.handle_endtag`: close the current message when a role
is active and the closing tag is one of the container names. -/
def handle_endtag (st : ScanState) (tag : String) : ScanState :=
  if roleTruthy st.currentRole ∧ (tag = "div" ∨ tag = "p" ∨ tag = "span") then
    close_message st
  else st

/-- Dispatch one event to its handler. -/
def feedEvent (st : ScanState) : Event → Except String ScanState
  | Event.starttag tag attrs => handle_starttag st tag attrs
  | Event.data s => Except.ok (handle_data st s)
  | Event.endtag tag => Except.ok (handle_endtag st tag)

/-- Feed a whole event stream, stopping at the first failure. -/
def feed (st : ScanState) : List Event → Except String ScanState
  | [] => Except.ok st
  | e :: es =>
    match feedEvent st e with
    | Except.ok st2 => feed st2 es
    | Except.error msg => Except.error msg

/-- `convert_html_to_markdown`, from the event stream of the document onward:
feed all events, then return `parser.messages`.  `parser.close()` only flushes
the tokenizer and invokes no message-level handler, so no final
`_close_message` happens here. -/
def convert_html_to_markdown (events : List Event) :
    Except String (List (String × String)) :=
  match feed initState events with
  | Except.ok st => Except.ok st.messages
  | Except.error msg => Except.error msg

/-- `write_markdown`: the content written to the output file, one
`f"{role}:\n{text}\n\n"` block per message, in order. -/
def write_markdown : List (String × String) → String
  | [] => ""
  | (role, text) :: rest => role ++ ":\n" ++ text ++ "\n\n" ++ write_markdown rest

/-- Index of the last occurrence of a character in a list. -/
def rfind (cs : List Char) (c : Char) : Option Nat :=
  match cs with
  | [] => none
  | a :: as =>
    match rfind as c with
    | some i => some (i + 1)
    | none => if a = c then some 0 else none

/-- `os.path.splitext(p)[0]` (POSIX): cut at the last dot that lies after the
last slash, unless every character between them is a dot (dotfiles keep their
name). -/
def splitextStem (p : String) : String :=
  let cs := p.data
  let sepIdx : Int := match rfind cs '/' with | some i => (i : Int) | none => -1
  let dotIdx : Int := match rfind cs '.' with | some i => (i : Int) | none => -1
  if sepIdx < dotIdx then
    let fnameStart := (sepIdx + 1).toNat
    if ((cs.drop fnameStart).take (dotIdx.toNat - fnameStart)).any
        (fun c => c ≠ '.') then
      ⟨cs.take dotIdx.toNat⟩
    else p
  else p

/-- Outcome of a successful CLI run: the path of the file written, the exact
content written to it, and the line printed to the user. -/
structure CliResult where
  outputPath : String
  outputContent : String
  report : String
deriving DecidableEq

/-- `args.output_file or os.path.splitext(args.input_file)[0] + ".md"`:
Python's `or` treats an empty output argument like an absent one. -/
def derivedOutput (input : String) (outputArg : Option String) : String :=
  match outputArg with
  | some o => if o = "" then splitextStem input ++ ".md" else o
  | none => splitextStem input ++ ".md"

/-- `main`, with the I/O boundary made explicit: `isFile` is
`os.path.isfile`, and `eventsOf` gives the event decomposition of the file at
a path.  `Except.error "Input file not found"` models
`raise SystemExit("Input file not found")` (non-zero exit, nothing written);
any other `Except.error` is an uncaught exception from extraction, also a
non-zero exit with nothing written. -/
def main (isFile : String → Bool) (eventsOf : String → List Event)
    (input : String) (outputArg : Option String) : Except String CliResult :=
  if isFile input = false then
    Except.error "Input file not found"
  else
    match convert_html_to_markdown (eventsOf input) with
    | Except.error msg => Except.error msg
    | Except.ok messages =>
      Except.ok
        { outputPath := derivedOutput input outputArg,
          outputContent := write_markdown messages,
          report := "Wrote " ++ toString messages.length ++ " messages to " ++
            derivedOutput input outputArg }

/-! ## Helper lemmas -/

theorem strip_join_nil : strip (String.join []) = "" := by decide

theorem roleTruthy_some {r : String} (h : r ≠ "") :
    roleTruthy (some r) = true := by
  simp only [roleTruthy]
  rw [if_neg h]

/-! ## C3: closing behaviour of end-tag events -/

/-- C3: on an element-close event with a role active and the tag one of the
three container names (any such end tag, not only the one that opened the
role), the message is closed: the buffered fragments are joined in order and
trimmed, `(role, text)` is appended exactly when the trimmed text is
non-empty, and the role and buffer are cleared in either case. -/
theorem c3_endtag_closes (st : ScanState) (r tag : String)
    (hr : st.currentRole = some r) (hne : r ≠ "")
    (htag : tag = "div" ∨ tag = "p" ∨ tag = "span") :
    handle_endtag st tag =
      { messages :=
          if strip (String.join st.buffer) = "" then st.messages
          else st.messages ++ [(r, strip (String.join st.buffer))],
        currentRole := none, buffer := [] } := by
  obtain ⟨msgs, cur, buf⟩ := st
  dsimp only at hr ⊢
  subst hr
  have hrt := roleTruthy_some hne
  unfold handle_endtag
  rw [if_pos ⟨hrt, htag⟩]
  unfold close_message
  dsimp only
  cases buf with
  | nil =>
    rw [if_neg (fun h => h.2 rfl), if_pos strip_join_nil]
  | cons b bs =>
    rw [if_pos ⟨hrt, List.cons_ne_nil b bs⟩]
    dsimp only [Option.getD_some]
    by_cases htext : strip (String.join (b :: bs)) = ""
    · rw [if_neg (fun h => h htext), if_pos htext]
    · rw [if_pos htext, if_neg htext]

theorem c3_endtag_closes_witness :
    handle_endtag { messages := [], currentRole := some "CHAT", buffer := [" hi "] } "p" =
      { messages :=
          if strip (String.join [" hi "]) = "" then []
          else [] ++ [("CHAT", strip (String.join [" hi "]))],
        currentRole := none, buffer := [] } :=
  c3_endtag_closes
    { messages := [], currentRole := some "CHAT", buffer := [" hi "] }
    "CHAT" "p" rfl (by decide) (Or.inr (Or.inl rfl))

/-- Characterization of `handle_starttag` when the class lookup succeeds. -/
theorem handle_starttag_eq (st : ScanState) (tag : String)
    (attrs : List (String × Option String)) (classes : String)
    (hc : getClasses attrs = some classes) :
    handle_starttag st tag attrs =
      Except.ok
        (if containsCI classes "user" then
          { messages := (close_message st).messages,
            currentRole := some "PROMPTER", buffer := [] }
        else if containsCI classes "assistant" || containsCI classes "bot" ||
            containsCI classes "chatgpt" then
          { messages := (close_message st).messages,
            currentRole := some "CHAT", buffer := [] }
        else st) := by
  unfold handle_starttag
  rw [hc]
  by_cases h1 : containsCI classes "user" = true
  · simp [h1, close_message]
  · rw [Bool.not_eq_true] at h1
    by_cases h2 : (containsCI classes "assistant" || containsCI classes "bot" ||
        containsCI classes "chatgpt") = true
    · simp [h1, h2, close_message]
    · rw [Bool.not_eq_true] at h2
      simp [h1, h2]

/-! ## C4: role detection on start-tag events -/

/-- C4: role detection is a case-insensitive substring match on the class
attribute with `"user"` checked first (so a class containing both `"user"`
and `"assistant"` classifies as PROMPTER), then
`"assistant" | "bot" | "chatgpt"` for CHAT; when a signal is found, the open
message is first flushed under the previous role and the new role starts
with an empty buffer; with no signal the state is untouched. -/
theorem c4_role_detection (st : ScanState) (tag : String)
    (attrs : List (String × Option String)) (classes : String)
    (hc : getClasses attrs = some classes) :
    handle_starttag st tag attrs =
      Except.ok
        (if containsCI classes "user" then
          { messages := (close_message st).messages,
            currentRole := some "PROMPTER", buffer := [] }
        else if containsCI classes "assistant" || containsCI classes "bot" ||
            containsCI classes "chatgpt" then
          { messages := (close_message st).messages,
            currentRole := some "CHAT", buffer := [] }
        else st) :=
  handle_starttag_eq st tag attrs classes hc

theorem c4_role_detection_witness :
    handle_starttag { messages := [], currentRole := some "CHAT", buffer := ["hi"] }
        "div" [("class", some "User Assistant-bubble")] =
      Except.ok { messages := [("CHAT", "hi")],
                  currentRole := some "PROMPTER", buffer := [] } := by
  have h := c4_role_detection
    { messages := [], currentRole := some "CHAT", buffer := ["hi"] }
    "div" [("class", some "User Assistant-bubble")] "User Assistant-bubble" rfl
  rw [h]
  decide

/-! ## C7: text events -/

/-- C7: a text event with no active role is discarded (the state, hence any
later output, is unchanged) — in particular a stream consisting only of text
events leaves the parser in its initial state, so text before the first role
marker never reaches a Message; with an active role the raw text is appended
to the buffer verbatim, in event order. -/
theorem c7_text_accumulation :
    (∀ (st : ScanState) (s : String), st.currentRole = none →
        handle_data st s = st) ∧
    (∀ (st : ScanState) (s r : String), st.currentRole = some r → r ≠ "" →
        handle_data st s = { st with buffer := st.buffer ++ [s] }) ∧
    (∀ pre : List String,
        feed initState (pre.map Event.data) = Except.ok initState) := by
  refine ⟨?_, ?_, ?_⟩
  · intro st s h
    unfold handle_data
    rw [h]
    rfl
  · intro st s r h hne
    unfold handle_data
    rw [h, if_pos (roleTruthy_some hne)]
  · intro pre
    induction pre with
    | nil => rfl
    | cons p ps ih =>
      show feed (handle_data initState p) (ps.map Event.data) = Except.ok initState
      rw [show handle_data initState p = initState from rfl]
      exact ih

theorem c7_text_accumulation_witness :
    handle_data initState "early text" = initState ∧
    handle_data { messages := [], currentRole := some "CHAT", buffer := ["a"] } "b" =
      { messages := [], currentRole := some "CHAT", buffer := ["a", "b"] } ∧
    feed initState ([" x ", "y"].map Event.data) = Except.ok initState :=
  ⟨c7_text_accumulation.1 initState "early text" rfl,
   c7_text_accumulation.2.1
     { messages := [], currentRole := some "CHAT", buffer := ["a"] } "b" "CHAT"
     rfl (by decide),
   c7_text_accumulation.2.2 [" x ", "y"]⟩

/-! ## C10: frame property of end-tag events -/

/-- C10: an element-close event whose tag is not one of div, p, span, and any
element-close event while no role is active, leaves the whole scan state
(messages, role, buffer) exactly unchanged. -/
theorem c10_endtag_frame (st : ScanState) (tag : String)
    (h : st.currentRole = none ∨ ¬(tag = "div" ∨ tag = "p" ∨ tag = "span")) :
    handle_endtag st tag = st := by
  unfold handle_endtag
  rcases h with h | h
  · rw [if_neg]
    intro hc
    rw [h] at hc
    exact Bool.false_ne_true hc.1
  · rw [if_neg]
    intro hc
    exact h hc.2

theorem c10_endtag_frame_witness :
    handle_endtag { messages := [], currentRole := some "PROMPTER", buffer := ["x"] } "b" =
      { messages := [], currentRole := some "PROMPTER", buffer := ["x"] } ∧
    handle_endtag { messages := [], currentRole := none, buffer := [] } "div" =
      { messages := [], currentRole := none, buffer := [] } :=
  ⟨c10_endtag_frame
      { messages := [], currentRole := some "PROMPTER", buffer := ["x"] } "b"
      (Or.inr (by decide)),
   c10_endtag_frame
      { messages := [], currentRole := none, buffer := [] } "div" (Or.inl rfl)⟩

/-! ## C5: every emitted Message has non-empty trimmed text -/

/-- Every message in the list carries trimmed, non-empty text. -/
def msgsOk (msgs : List (String × String)) : Prop :=
  ∀ m ∈ msgs, (∃ raw, m.2 = strip raw) ∧ m.2 ≠ ""

theorem close_message_msgsOk (st : ScanState) (h : msgsOk st.messages) :
    msgsOk (close_message st).messages := by
  unfold close_message
  dsimp only
  split
  · split
    · intro m hm
      rcases List.mem_append.1 hm with hm | hm
      · exact h m hm
      · rw [List.mem_singleton] at hm
        subst hm
        exact ⟨⟨String.join st.buffer, rfl⟩, by assumption⟩
    · exact h
  · exact h

theorem handle_starttag_messages (st st2 : ScanState) (tag : String)
    (attrs : List (String × Option String))
    (hfe : handle_starttag st tag attrs = Except.ok st2) :
    st2.messages = st.messages ∨
      st2.messages = (close_message st).messages := by
  cases hgc : getClasses attrs with
  | none =>
    unfold handle_starttag at hfe
    rw [hgc] at hfe
    cases hfe
  | some classes =>
    rw [handle_starttag_eq st tag attrs classes hgc] at hfe
    injection hfe with hfe
    subst hfe
    split
    · right; rfl
    · split
      · right; rfl
      · left; rfl

theorem handle_data_messages (st : ScanState) (s : String) :
    (handle_data st s).messages = st.messages := by
  unfold handle_data
  split
  · rfl
  · rfl

theorem handle_endtag_cases (st : ScanState) (tag : String) :
    handle_endtag st tag = close_message st ∨ handle_endtag st tag = st := by
  unfold handle_endtag
  split
  · left; rfl
  · right; rfl

theorem feedEvent_msgsOk (st st2 : ScanState) (e : Event)
    (h : msgsOk st.messages) (hfe : feedEvent st e = Except.ok st2) :
    msgsOk st2.messages := by
  cases e with
  | starttag tag attrs =>
    rcases handle_starttag_messages st st2 tag attrs hfe with hm | hm
    · rw [hm]; exact h
    · rw [hm]; exact close_message_msgsOk st h
  | data s =>
    injection hfe with hfe
    rw [← hfe, handle_data_messages]
    exact h
  | endtag tag =>
    injection hfe with hfe
    rcases handle_endtag_cases st tag with hm | hm
    · rw [← hfe, hm]; exact close_message_msgsOk st h
    · rw [← hfe, hm]; exact h

theorem feed_msgsOk (events : List Event) (st st2 : ScanState)
    (h : msgsOk st.messages) (hf : feed st events = Except.ok st2) :
    msgsOk st2.messages := by
  induction events generalizing st with
  | nil =>
    injection hf with hf
    rw [← hf]
    exact h
  | cons e es ih =>
    unfold feed at hf
    cases hfe : feedEvent st e with
    | ok stm =>
      rw [hfe] at hf
      exact ih stm (feedEvent_msgsOk st stm e h hfe) hf
    | error msg =>
      rw [hfe] at hf
      cases hf

/-- C5: every Message in the extractor's output has non-empty trimmed text
(the text is the result of a strip and is non-empty) — so a role marker
followed only by whitespace or immediately by another role marker or
container close contributes no Message. -/
theorem c5_messages_nonempty (events : List Event)
    (msgs : List (String × String))
    (h : convert_html_to_markdown events = Except.ok msgs) :
    ∀ m ∈ msgs, (∃ raw, m.2 = strip raw) ∧ m.2 ≠ "" := by
  unfold convert_html_to_markdown at h
  cases hf : feed initState events with
  | ok st =>
    rw [hf] at h
    injection h with h
    subst h
    exact feed_msgsOk events initState st
      (by intro m hm; simp [initState] at hm) hf
  | error msg =>
    rw [hf] at h
    cases h

def c5Events : List Event :=
  [Event.starttag "div" [("class", some "user-bubble")], Event.data "   ",
   Event.endtag "div",
   Event.starttag "p" [("class", some "ChatGPT-msg")], Event.data " ok ",
   Event.endtag "p"]

theorem c5_messages_nonempty_witness :
    (∃ raw, ("ok" : String) = strip raw) ∧ ("ok" : String) ≠ "" :=
  c5_messages_nonempty c5Events [("CHAT", "ok")] (by decide)
    ("CHAT", "ok") (by decide)

/-! ## C1: behaviour at end of the event stream -/

def c1Events : List Event :=
  [Event.starttag "div" [("class", some "user-message")], Event.data "Hello"]

/-- C1 counterexample: on a stream whose final role-marked element is never
closed, the scan ends with the role still active ("PROMPTER") and non-empty
buffered text (["Hello"]), yet the returned sequence is empty — it does not
end with a ("PROMPTER", "Hello") record, because nothing invokes the close
routine after the event stream ends (`parser.close()` only flushes the
tokenizer). -/
theorem c1_counterexample :
    feed initState c1Events =
      Except.ok { messages := [], currentRole := some "PROMPTER",
                  buffer := ["Hello"] } ∧
    convert_html_to_markdown c1Events = Except.ok [] := by decide

/-- C1 amended: at end of the event stream there is no final flush — even
when a role is still active with non-empty buffered text, the returned
sequence is exactly the messages accumulated by explicit close events, and
the pending buffer is discarded. -/
theorem c1_no_final_flush (events : List Event) (st : ScanState)
    (hf : feed initState events = Except.ok st)
    (hrole : st.currentRole.isSome = true) (hbuf : st.buffer ≠ []) :
    convert_html_to_markdown events = Except.ok st.messages := by
  unfold convert_html_to_markdown
  rw [hf]

theorem c1_no_final_flush_witness :
    convert_html_to_markdown c1Events =
      Except.ok ([] : List (String × String)) := by
  have h := c1_no_final_flush c1Events
    { messages := [], currentRole := some "PROMPTER", buffer := ["Hello"] }
    (by decide) rfl (by decide)
  exact h

/-! ## C2: graceful degradation on malformed markup -/

/-- A start tag whose class attribute is either absent or carries a value
(the only shape on which `re.search` cannot receive `None`). -/
def eventClassOk : Event → Bool
  | Event.starttag _ attrs => (getClasses attrs).isSome
  | Event.data _ => true
  | Event.endtag _ => true

theorem handle_starttag_total (st : ScanState) (tag : String)
    (attrs : List (String × Option String))
    (h : (getClasses attrs).isSome = true) :
    ∃ st2, handle_starttag st tag attrs = Except.ok st2 := by
  cases hgc : getClasses attrs with
  | none =>
    rw [hgc] at h
    simp at h
  | some classes =>
    rw [handle_starttag_eq st tag attrs classes hgc]
    exact ⟨_, rfl⟩

theorem feed_total (events : List Event) (st : ScanState)
    (h : events.all eventClassOk = true) :
    ∃ st2, feed st events = Except.ok st2 := by
  induction events generalizing st with
  | nil => exact ⟨st, rfl⟩
  | cons e es ih =>
    rw [List.all_cons, Bool.and_eq_true] at h
    have hstep : ∃ stm, feedEvent st e = Except.ok stm := by
      cases e with
      | starttag tag attrs => exact handle_starttag_total st tag attrs h.1
      | data s => exact ⟨_, rfl⟩
      | endtag tag => exact ⟨_, rfl⟩
    obtain ⟨stm, hstm⟩ := hstep
    obtain ⟨st2, h2⟩ := ih stm h.2
    refine ⟨st2, ?_⟩
    unfold feed
    rw [hstm]
    exact h2

/-- C2 counterexample: a class attribute written without a value (`<div
class>`) makes the extractor raise — `attrs` carries `("class", None)`,
`attr_dict.get("class", "")` returns `None`, and `re.search` raises
`TypeError` — so extraction does not return a sequence of Messages. -/
theorem c2_counterexample :
    convert_html_to_markdown [Event.starttag "div" [("class", none)]] =
      Except.error "TypeError" := by decide

/-- C2 amended: for every event stream in which no start tag carries a class
attribute written without a value, the extractor never fails: it returns an
ordered sequence of Messages, however unbalanced the tags or unknown the
elements; a valueless class attribute, however, raises a TypeError. -/
theorem c2_graceful_degradation (events : List Event)
    (h : events.all eventClassOk = true) :
    ∃ msgs, convert_html_to_markdown events = Except.ok msgs := by
  obtain ⟨st2, h2⟩ := feed_total events initState h
  refine ⟨st2.messages, ?_⟩
  unfold convert_html_to_markdown
  rw [h2]

def c2OkEvents : List Event :=
  [Event.endtag "div", Event.starttag "customtag" [],
   Event.starttag "div" [("class", some "")],
   Event.starttag "p" [("class", some "user"), ("hidden", none)],
   Event.data "hi", Event.endtag "span", Event.endtag "span"]

theorem c2_graceful_degradation_witness :
    ∃ msgs, convert_html_to_markdown c2OkEvents = Except.ok msgs :=
  c2_graceful_degradation c2OkEvents (by decide)

/-! ## C6: serialization format and end-to-end scenario -/

def c6Events : List Event :=
  [Event.starttag "div" [("class", some "user-message")],
   Event.data "Hi there", Event.endtag "div",
   Event.starttag "div" [("class", some "assistant-message")],
   Event.data "Hello! How can I help?", Event.endtag "div"]

/-- C6: the serializer emits, for each message in order, exactly the role
label, a colon, a line break, the text verbatim, then a blank line; and on
the two-message example document the extracted sequence and the serialized
content are exactly as the spec states. -/
theorem c6_end_to_end :
    (∀ (role text : String) (rest : List (String × String)),
        write_markdown ((role, text) :: rest) =
          role ++ ":\n" ++ text ++ "\n\n" ++ write_markdown rest) ∧
    convert_html_to_markdown c6Events =
      Except.ok [("PROMPTER", "Hi there"), ("CHAT", "Hello! How can I help?")] ∧
    write_markdown [("PROMPTER", "Hi there"), ("CHAT", "Hello! How can I help?")] =
      "PROMPTER:\nHi there\n\nCHAT:\nHello! How can I help?\n\n" :=
  ⟨fun _ _ _ => rfl, by decide, by decide⟩

/-! ## C8: CLI error and success behaviour -/

/-- C8: when the input path is not an existing regular file, `main` stops
with the error "Input file not found" whatever the file contents would have
been (no extraction is attempted, and the error outcome carries no written
file); every successful run implies the input existed, and reports exactly
the count of extracted messages and the output path, with the rendered
messages as the written content. -/
theorem c8_cli (isFile : String → Bool) (input : String)
    (outputArg : Option String) :
    (isFile input = false → ∀ eventsOf : String → List Event,
        main isFile eventsOf input outputArg =
          Except.error "Input file not found") ∧
    (∀ (eventsOf : String → List Event) (res : CliResult),
        main isFile eventsOf input outputArg = Except.ok res →
        isFile input = true ∧
        ∃ msgs, convert_html_to_markdown (eventsOf input) = Except.ok msgs ∧
          res.outputContent = write_markdown msgs ∧
          res.report = "Wrote " ++ toString msgs.length ++ " messages to " ++
            res.outputPath) := by
  constructor
  · intro h eventsOf
    unfold main
    rw [h, if_pos rfl]
  · intro eventsOf res h
    unfold main at h
    by_cases hf : isFile input = false
    · rw [if_pos hf] at h
      cases h
    · rw [if_neg hf] at h
      have hft : isFile input = true := by
        cases hval : isFile input
        · exact absurd hval hf
        · rfl
      refine ⟨hft, ?_⟩
      split at h
      · exact Except.noConfusion h
      · injection h with h
        subst h
        exact ⟨_, by assumption, rfl, rfl⟩

theorem c8_cli_witness :
    main (fun _ => false) (fun _ => []) "chat.html" none =
      Except.error "Input file not found" ∧
    (fun _ : String => true) "chat.html" = true :=
  ⟨(c8_cli (fun _ => false) "chat.html" none).1 rfl (fun _ => []),
   ((c8_cli (fun _ => true) "chat.html" none).2 (fun _ => [])
      { outputPath := "chat.md", outputContent := "",
        report := "Wrote 0 messages to chat.md" } (by decide)).1⟩

/-! ## C9: empty extraction still writes an empty output file -/

/-- C9: when the input exists and extraction yields zero messages, `main`
still succeeds: the output file is written with empty content and the report
announces a count of 0 and the output path. -/
theorem c9_empty_transcript (isFile : String → Bool)
    (eventsOf : String → List Event) (input : String)
    (outputArg : Option String)
    (h1 : isFile input = true)
    (h2 : convert_html_to_markdown (eventsOf input) = Except.ok []) :
    main isFile eventsOf input outputArg =
      Except.ok { outputPath := derivedOutput input outputArg,
                  outputContent := "",
                  report := "Wrote 0 messages to " ++
                    derivedOutput input outputArg } := by
  unfold main
  rw [h1, if_neg (by decide), h2]
  rfl

theorem c9_empty_transcript_witness :
    main (fun _ => true) (fun _ => []) "chat.html" none =
      Except.ok { outputPath := derivedOutput "chat.html" none,
                  outputContent := "",
                  report := "Wrote 0 messages to " ++
                    derivedOutput "chat.html" none } :=
  c9_empty_transcript (fun _ => true) (fun _ => []) "chat.html" none rfl rfl

end HtmlChatToMd
